import Mathlib

/-!
Verification of the network event correlation and session-lifecycle engine of
`browser-tools-mcp` (`src/index.ts`), against its natural-language specification.

The TypeScript source is shallowly embedded below:
* the global `networkRequests` map becomes a `Store` (a function from request id
  to an optional record); the two CDP event handlers become pure store
  transformers (`onRequestSent`, `onResponseReceived`);
* the `query-network-traffic` filter/sort/limit pipeline becomes `query`;
* the `urlFilter` wildcard pattern (`new RegExp(urlFilter.replace(/\*/g, ".*"), "i")`
  followed by `pattern.test(url)`) is embedded as a matcher for the regex
  fragment actually exercised (literal characters, `.`, postfix `*`), applied
  case-insensitively and unanchored, exactly as the JS semantics prescribe;
* the connection-reuse logic of `query-network-traffic` and `open-url` becomes
  `queryEnsureClient` / `openUrlEnsureClient`;
* the `waitForNetworkSettle` polling loop of `open-url` becomes a discrete-time
  poll over tick times `t0 + 100*(k+1)`;
* the `start-chrome-debug` handler becomes `startChromeDebug`, with the
  reachability probe abstracted as an environment;
* the `get-network-details` handler becomes `getNetworkDetails`, with the two
  best-effort CDP body fetches abstracted as `Except` values.

Timestamps (CDP monotonic floats and `Date.now()` milliseconds) are modelled as
`Nat`: only their ordering and differences matter to the verified properties.
-/

/-! ## Record store (the `networkRequests` map and its two CDP event handlers) -/

/-- The response sub-object stored by the `Network.responseReceived` handler:
`{url, status, statusText, headers, mimeType}`. -/
structure RespData where
  url : String
  status : Nat
  statusText : String
  headers : List (String × String)
  mimeType : String
deriving DecidableEq, Repr

/-- A stored network record. Every field is optional because the store also
holds partial shells (a response that arrived with no prior request produces a
record whose request fields are absent, spread from the empty object `{}`). -/
structure NetworkRecord where
  requestId : Option String := none
  url : Option String := none
  method : Option String := none
  headers : Option (List (String × String)) := none
  postData : Option String := none
  timestamp : Option Nat := none
  type : Option String := none
  response : Option RespData := none
  responseTimestamp : Option Nat := none
deriving DecidableEq, Repr

/-- The `networkRequests` map, keyed by `requestId`. -/
def Store : Type := String → Option NetworkRecord

def emptyStore : Store := fun _ => none

/-- The `Network.requestWillBeSent` handler: `networkRequests.set(requestId,
{requestId, url, method, headers, postData, timestamp, type: "request"})`.
Note the stored object is built fresh — it does NOT spread any existing record,
so a previously stored response shell for the same id is overwritten. -/
def onRequestSent (store : Store) (requestId url method : String)
    (headers : List (String × String)) (postData : Option String)
    (timestamp : Nat) : Store :=
  fun k =>
    if k = requestId then
      some { requestId := some requestId, url := some url, method := some method,
             headers := some headers, postData := postData,
             timestamp := some timestamp, type := some "request" }
    else store k

/-- The `Network.responseReceived` handler: `const existing =
networkRequests.get(requestId) || {}; networkRequests.set(requestId,
{...existing, requestId, response: {...}, responseTimestamp: timestamp})`. -/
def onResponseReceived (store : Store) (requestId : String) (resp : RespData)
    (timestamp : Nat) : Store :=
  let existing := (store requestId).getD {}
  fun k =>
    if k = requestId then
      some { existing with
             requestId := some requestId
             response := some resp
             responseTimestamp := some timestamp }
    else store k

/-- A CDP network event, as the two handlers see it. -/
inductive NetEvent where
  | requestSent (requestId url method : String) (headers : List (String × String))
      (postData : Option String) (timestamp : Nat)
  | responseReceived (requestId : String) (resp : RespData) (timestamp : Nat)
deriving DecidableEq, Repr

def applyEvent (store : Store) : NetEvent → Store
  | NetEvent.requestSent id u m h p t => onRequestSent store id u m h p t
  | NetEvent.responseReceived id r t => onResponseReceived store id r t

/-- Ingest a sequence of events in transport delivery order. -/
def applyEvents (store : Store) (events : List NetEvent) : Store :=
  events.foldl applyEvent store

/-! ## URL filter (`new RegExp(urlFilter.replace(/\*/g, ".*"), "i")` + `pattern.test`)

The JS code compiles the user's filter to a regular expression by replacing
every `*` with `.*` and matching case-insensitively, unanchored. We embed the
semantics of the regex fragment this produces: a sequence of atoms (a literal
character or `.`), each optionally repeated by a postfix `*`. All other
characters of the filter are passed through unescaped and therefore act as
regex syntax; within this fragment a non-metacharacter is a literal atom. -/

inductive RAtom where
  | dot
  | ch (c : Char)
deriving DecidableEq, Repr

inductive RTok where
  | atom (a : RAtom)
  | star (a : RAtom)
deriving DecidableEq, Repr

def atomOf (c : Char) : RAtom :=
  if c = '.' then RAtom.dot else RAtom.ch c

/-- `urlFilter.replace(/\*/g, ".*")` at the character level. -/
def replaceStars (s : List Char) : List Char :=
  s.flatMap fun c => if c = '*' then ['.', '*'] else [c]

/-- Parse the replaced pattern into tokens: an atom followed by `*` is a
starred atom, otherwise a plain atom. -/
def parseToks : List Char → List RTok
  | [] => []
  | c :: '*' :: rest => RTok.star (atomOf c) :: parseToks rest
  | c :: rest => RTok.atom (atomOf c) :: parseToks rest

def matchAtom : RAtom → Char → Bool
  | RAtom.dot, _ => true
  | RAtom.ch d, c => d == c

/-- Anchored-at-start match: do the tokens match some prefix of `s`?
Structural recursion on an explicit fuel so the definition reduces in the
kernel; every recursive call strictly decreases `2*s.length + ts.length`, so
the fuel chosen in `matchHere` is never exhausted. -/
def matchHereF (fuel : Nat) (ts : List RTok) (s : List Char) : Bool :=
  match fuel, ts, s with
  | 0, _, _ => false
  | _ + 1, [], _ => true
  | _ + 1, RTok.atom _ :: _, [] => false
  | f + 1, RTok.atom a :: ts, c :: s => matchAtom a c && matchHereF f ts s
  | f + 1, RTok.star _ :: ts, [] => matchHereF f ts []
  | f + 1, RTok.star a :: ts, c :: s =>
      matchHereF f ts (c :: s) || (matchAtom a c && matchHereF f (RTok.star a :: ts) s)

def matchHere (ts : List RTok) (s : List Char) : Bool :=
  matchHereF (2 * s.length + ts.length + 1) ts s

/-- Unanchored search, as `RegExp.prototype.test` performs: try a match
starting at every position of `s`. -/
def rtest (ts : List RTok) : List Char → Bool
  | [] => matchHere ts []
  | c :: s => matchHere ts (c :: s) || rtest ts s

/-- Case-insensitivity (the `"i"` flag) is embedded by lowering both the
pattern and the subject. -/
def lowerChars (s : List Char) : List Char := s.map Char.toLower

def compilePattern (flt : String) : List RTok :=
  parseToks (lowerChars (replaceStars flt.data))

/-- `pattern.test(req.url)`: a record whose `url` is absent is coerced by JS to
the string `"undefined"` before testing. -/
def urlFilterMatches (flt : String) (r : NetworkRecord) : Bool :=
  rtest (compilePattern flt) (lowerChars (r.url.getD "undefined").data)

/-! ## Query engine (`query-network-traffic` filter / sort / limit) -/

/-- The tool arguments. `none` models an omitted argument; JS truthiness also
skips a filter when the value is falsy (empty string, status code `0`). -/
structure QueryOpts where
  urlFilter : Option String := none
  method : Option String := none
  statusCode : Option Nat := none
  limit : Nat := 50
deriving Repr

/-- `req.method?.toLowerCase() === method.toLowerCase()`. -/
def methodMatches (m : String) (r : NetworkRecord) : Bool :=
  match r.method with
  | some rm => rm.toLower == m.toLower
  | none => false

/-- `req.response?.status === statusCode`: records without a response are
excluded by any status filter. -/
def statusMatches (sc : Nat) (r : NetworkRecord) : Bool :=
  match r.response with
  | some resp => resp.status == sc
  | none => false

/-- The three `if (...)`-guarded filters, in source order. -/
def queryFilter (opts : QueryOpts) (rs : List NetworkRecord) : List NetworkRecord :=
  let rs1 := match opts.urlFilter with
    | some f => if f.isEmpty then rs else rs.filter (urlFilterMatches f)
    | none => rs
  let rs2 := match opts.method with
    | some m => if m.isEmpty then rs1 else rs1.filter (methodMatches m)
    | none => rs1
  match opts.statusCode with
  | some sc => if sc == 0 then rs2 else rs2.filter (statusMatches sc)
  | none => rs2

/-- The sort key `(req.timestamp || 0)`: a missing timestamp falls back to 0. -/
def tsKey (r : NetworkRecord) : Nat := r.timestamp.getD 0

/-- Insert into a list already sorted by descending `tsKey`. -/
def insertDesc (r : NetworkRecord) : List NetworkRecord → List NetworkRecord
  | [] => [r]
  | x :: xs => if tsKey x ≤ tsKey r then r :: x :: xs else x :: insertDesc r xs

/-- `.sort((a, b) => (b.timestamp || 0) - (a.timestamp || 0))`: sort by
timestamp descending. -/
def sortDesc : List NetworkRecord → List NetworkRecord
  | [] => []
  | x :: xs => insertDesc x (sortDesc xs)

/-- The full pipeline applied to a snapshot (`Array.from(networkRequests.values())`):
filter, sort descending by timestamp, `.slice(0, limit)`. -/
def query (snapshot : List NetworkRecord) (opts : QueryOpts) : List NetworkRecord :=
  (sortDesc (queryFilter opts snapshot)).take opts.limit

/-! ## Connection handling (the process-wide `cdpClient`)

`query-network-traffic` connects only when `!cdpClient`; it never inspects the
socket. `open-url` reconnects when `!cdpClient || cdpClient._ws?.readyState !== 1`,
closing any previous handle with close errors ignored. Both pick the first
target with `type === "page"`, else the first target, from a fresh `CDP.List`. -/

/-- An entry of the debug endpoint's target list. -/
structure CTarget where
  type : String
  webSocketDebuggerUrl : String
deriving DecidableEq, Repr

/-- A CDP connection handle; `wsReadyState` models `_ws?.readyState`
(`none` when `_ws` is undefined; `some 1` is an open WebSocket). -/
structure CdpClient where
  wsReadyState : Option Nat
  targetUrl : String
deriving DecidableEq, Repr

/-- `targets.find(t => t.type === "page") || targets[0]`. -/
def pageTargetOf (targets : List CTarget) : Option CTarget :=
  (targets.find? (fun t => t.type == "page")).orElse (fun _ => targets.head?)

/-- The connection step of `query-network-traffic` (lines 206-258): reuse the
handle whenever one exists, otherwise connect to the selected target.
Returns `none` on the no-target error path, otherwise the client used for the
operation and whether a new connection was opened. -/
def queryEnsureClient (client : Option CdpClient) (targets : List CTarget) :
    Option (CdpClient × Bool) :=
  match client with
  | some c => some (c, false)
  | none =>
    match pageTargetOf targets with
    | none => none
    | some t => some ({ wsReadyState := some 1, targetUrl := t.webSocketDebuggerUrl }, true)

/-- The connection step of `open-url` (lines 537-601): targets are always
fetched fresh; a missing or non-open handle is closed (best-effort) and
replaced. Returns the client used, whether a new connection was opened, and
whether an old handle was closed. -/
def openUrlEnsureClient (client : Option CdpClient) (targets : List CTarget) :
    Option (CdpClient × Bool × Bool) :=
  match pageTargetOf targets with
  | none => none
  | some t =>
    match client with
    | some c =>
      if c.wsReadyState == some 1 then some (c, false, false)
      else some ({ wsReadyState := some 1, targetUrl := t.webSocketDebuggerUrl }, true, true)
    | none => some ({ wsReadyState := some 1, targetUrl := t.webSocketDebuggerUrl }, true, false)

/-! ## The settle wait of `open-url` (`waitForNetworkSettle`)

`lastNetworkActivity` is initialised to `Date.now()` (call it `t0`) and stamped
to the current time by every temporary network handler; `events` is the set of
those stamp times. A `setInterval` fires at times `t0 + 100*(k+1)` and resolves
at the first tick where `Date.now() - lastNetworkActivity >= 1000`. -/

/-- The value of `lastNetworkActivity` at time `t`: the latest handler stamp
not after `t`, or the initial `t0` when no event has arrived yet. -/
def lastActivity (t0 : Nat) (events : List Nat) (t : Nat) : Nat :=
  match events with
  | [] => t0
  | e :: rest =>
    if e ≤ t then max (lastActivity t0 rest t) e else lastActivity t0 rest t

/-- An upper bound on `lastActivity` at any time. -/
def actBound (t0 : Nat) (events : List Nat) : Nat :=
  match events with
  | [] => t0
  | e :: rest => max (actBound t0 rest) e

/-- The interval callback's test at tick `k` (tick times are
`t0 + 100*(k+1)`): `Date.now() - lastNetworkActivity >= 1000`. -/
def settledChk (t0 : Nat) (events : List Nat) (k : Nat) : Bool :=
  decide (1000 ≤ (t0 + 100 * (k + 1)) - lastActivity t0 events (t0 + 100 * (k + 1)))

/-- The polling loop: resolve at the first passing tick. The fuel given in
`settleTick` always suffices, so the loop genuinely exits on its condition. -/
def settleLoop (t0 : Nat) (events : List Nat) (k fuel : Nat) : Nat :=
  match fuel with
  | 0 => k
  | f + 1 => if settledChk t0 events k then k else settleLoop t0 events (k + 1) f

/-- The tick at which `waitForNetworkSettle` resolves. -/
def settleTick (t0 : Nat) (events : List Nat) : Nat :=
  settleLoop t0 events 0 (actBound t0 events + 10)

/-- The absolute time at which `waitForNetworkSettle` resolves. -/
def settleTime (t0 : Nat) (events : List Nat) : Nat :=
  t0 + 100 * (settleTick t0 events + 1)

/-! ## `start-chrome-debug` (process supervisor) -/

/-- The mutable module-level state touched by the tools. -/
structure GlobalState where
  chromeProcess : Option Nat
  cdpClient : Option CdpClient
  networkRequests : Store

/-- The environment `start-chrome-debug` runs against: the target count of the
initial probe (`0` also covers an unreachable endpoint, which
`isChromeAccessible` maps to `accessible: false`), the per-retry reachability
probe after spawning, the target count observed once reachable, the pid of the
spawned process and the resolved user data directory. -/
structure ChromeEnv where
  initialTargets : Nat
  probe : Nat → Bool
  finalTargets : Nat
  spawnPid : Nat
  userDataDir : String

/-- Which side effects the handler performed. -/
structure StartEffects where
  spawned : Bool
  killedOrphans : Bool
  killedSpawned : Bool
deriving DecidableEq, Repr

/-- `waitForChromeAccessible(maxRetries, delayMs)`: `maxRetries` polls at
`delayMs` intervals, true iff some poll sees the endpoint accessible. -/
def waitForChromeAccessible (probe : Nat → Bool) (maxRetries delayMs : Nat) : Bool :=
  (List.range maxRetries).any probe

def alreadyRunningText (n : Nat) : String :=
  "Chrome debug instance is already running on port 9222\nActive targets: " ++ toString n

def startedText (pid : Nat) (dir : String) (n : Nat) : String :=
  "Chrome debug instance started successfully!\nPID: " ++ toString pid
    ++ "\nDebugging port: 9222\nUser data directory: " ++ dir
    ++ "\nActive targets: " ++ toString n

/-- The message of the error thrown on startup timeout (line 152-154). -/
def chromeTimeoutMsg : String :=
  "Failed to start Chrome: Chrome started but debugging interface is not accessible after 7.5 seconds"

/-- The `start-chrome-debug` handler. Every path returns a text result: the
handler's outer `catch` converts the timeout throw into
`"Failed to start Chrome: " + message`, after the cleanup code has already
killed the spawned process and nulled `chromeProcess`. -/
def startChromeDebug (st : GlobalState) (env : ChromeEnv) :
    String × GlobalState × StartEffects :=
  if 0 < env.initialTargets then
    (alreadyRunningText env.initialTargets, st,
     { spawned := false, killedOrphans := false, killedSpawned := false })
  else
    let st1 : GlobalState := { st with chromeProcess := some env.spawnPid }
    if waitForChromeAccessible env.probe 15 500 then
      (startedText env.spawnPid env.userDataDir env.finalTargets, st1,
       { spawned := true, killedOrphans := true, killedSpawned := false })
    else
      ("Failed to start Chrome: " ++ chromeTimeoutMsg,
       { st1 with chromeProcess := none },
       { spawned := true, killedOrphans := true, killedSpawned := true })

/-! ## `get-network-details` (record detail with best-effort body fetches) -/

/-- Result of `Network.getResponseBody`. -/
structure BodyResult where
  body : String
  base64Encoded : Bool
deriving DecidableEq, Repr

/-- The `responseBody` variable after the first try/catch: either the fetched
body or the inline error marker object. -/
inductive RespBodyField where
  | ok (b : BodyResult)
  | fetchError (msg : String)
deriving DecidableEq, Repr

/-- JS truthiness of an optional string (`undefined` and `""` are falsy). -/
def truthyOptStr (o : Option String) : Bool :=
  match o with
  | none => false
  | some s => !s.isEmpty

def isStateChanging (m : Option String) : Bool :=
  m == some "POST" || m == some "PUT" || m == some "PATCH"

/-- The second try/catch: cached `postData` wins; otherwise for state-changing
methods `Network.getRequestPostData` is attempted and a failure leaves
`postData` null. -/
def detailPostData (req : NetworkRecord) (postFetch : Except String String) :
    Option String :=
  if truthyOptStr req.postData then req.postData
  else if isStateChanging req.method then
    match postFetch with
    | Except.ok p => some p
    | Except.error _ => none
  else none

/-- The first try/catch: a failed `Network.getResponseBody` degrades to the
inline marker. -/
def detailResponseBody (bodyFetch : Except String BodyResult) : RespBodyField :=
  match bodyFetch with
  | Except.ok b => RespBodyField.ok b
  | Except.error _ => RespBodyField.fetchError "Could not retrieve response body"

def displayOpt (o : Option String) : String := o.getD "undefined"

/-- `details.response?.status || "pending"`. -/
def statusDisplay (resp : Option RespData) : String :=
  match resp with
  | some r => if r.status == 0 then "pending" else toString r.status
  | none => "pending"

def headersLines (hs : List (String × String)) : String :=
  hs.foldl (fun acc kv => acc ++ kv.1 ++ ": " ++ kv.2 ++ "\n") ""

/-- The leading part of the report: `## method url` and the status line. -/
def mdHead (req : NetworkRecord) : String :=
  "## " ++ displayOpt req.method ++ " " ++ displayOpt req.url ++ "\n\n"
    ++ "Status: " ++ statusDisplay req.response ++ "\n\n"

def reqHeadersSection (includeHeaders : Bool) (req : NetworkRecord) : String :=
  match req.headers with
  | some hs =>
    if includeHeaders && !hs.isEmpty then
      "### Request Headers:\n" ++ headersLines hs ++ "\n"
    else ""
  | none => ""

def reqBodySection (postData : Option String) : String :=
  match postData with
  | some p => if !p.isEmpty then "### Request Body:\n```\n" ++ p ++ "\n```\n\n" else ""
  | none => ""

def respHeadersSection (includeHeaders : Bool) (req : NetworkRecord) : String :=
  match req.response with
  | some r =>
    if includeHeaders && !r.headers.isEmpty then
      "### Response Headers:\n" ++ headersLines r.headers ++ "\n"
    else ""
  | none => ""

def respBodySection (rb : RespBodyField) : String :=
  match rb with
  | RespBodyField.ok b =>
    if !b.body.isEmpty then "### Response Body:\n```\n" ++ b.body ++ "\n```\n" else ""
  | RespBodyField.fetchError _ => ""

/-- `formatDetails`: the sections in source order, appended after the head. -/
def formatDetails (includeHeaders : Bool) (req : NetworkRecord)
    (postData : Option String) (rb : RespBodyField) : String :=
  mdHead req
    ++ (reqHeadersSection includeHeaders req
        ++ (reqBodySection postData
            ++ (respHeadersSection includeHeaders req ++ respBodySection rb)))

structure DetailResult where
  responseBody : RespBodyField
  postData : Option String
  text : String

/-- The `get-network-details` handler for a record found in the store, with the
two CDP calls abstracted as `Except` outcomes. -/
def getNetworkDetails (includeHeaders : Bool) (req : NetworkRecord)
    (bodyFetch : Except String BodyResult) (postFetch : Except String String) :
    DetailResult :=
  let rb := detailResponseBody bodyFetch
  let pd := detailPostData req postFetch
  { responseBody := rb, postData := pd, text := formatDetails includeHeaders req pd rb }

/-! ## Shared sample data and helper lemmas -/

def respSample200 : RespData := ⟨"http://a/x", 200, "OK", [], "text/html"⟩

def respSample404 : RespData := ⟨"http://b/y", 404, "Not Found", [], "application/json"⟩

def sampleState : GlobalState :=
  { chromeProcess := none, cdpClient := none, networkRequests := emptyStore }

def sampleEnvTimeout : ChromeEnv :=
  { initialTargets := 0, probe := fun _ => false, finalTargets := 0,
    spawnPid := 77, userDataDir := "/tmp/profile" }

def sampleEnvRunning : ChromeEnv :=
  { initialTargets := 3, probe := fun _ => true, finalTargets := 3,
    spawnPid := 77, userDataDir := "/tmp/profile" }

def samplePostReq : NetworkRecord :=
  { requestId := some "r7", url := some "http://a/s", method := some "POST",
    timestamp := some 3 }

/-- Folding any nonempty run of `responseReceived` events for `id` over a store
that already holds a record `r0` for `id` preserves all of `r0`'s request
fields and leaves the response fields of the last event. -/
theorem respFold_preserves (id : String) (resps : List (RespData × Nat)) :
    ∀ (hne : resps ≠ []) (store : Store) (r0 : NetworkRecord),
      store id = some r0 →
      ∃ r, (applyEvents store (resps.map
              (fun rt => NetEvent.responseReceived id rt.1 rt.2))) id = some r
        ∧ r.url = r0.url ∧ r.method = r0.method ∧ r.headers = r0.headers
        ∧ r.postData = r0.postData ∧ r.timestamp = r0.timestamp
        ∧ r.response = some (resps.getLast hne).1
        ∧ r.responseTimestamp = some (resps.getLast hne).2 := by
  induction resps with
  | nil => intro hne; exact absurd rfl hne
  | cons x rest ih =>
    intro hne store r0 h
    cases rest with
    | nil =>
      refine ⟨{ r0 with
                requestId := some id
                response := some x.1
                responseTimestamp := some x.2 }, ?_, rfl, rfl, rfl, rfl, rfl, ?_, ?_⟩
      · simp [applyEvents, applyEvent, onResponseReceived, h]
      · simp
      · simp
    | cons y rest' =>
      have h1 : (applyEvent store (NetEvent.responseReceived id x.1 x.2)) id =
          some { r0 with
                 requestId := some id
                 response := some x.1
                 responseTimestamp := some x.2 } := by
        simp [applyEvent, onResponseReceived, h]
      obtain ⟨r, hr, hu, hm, hh, hp, ht, hresp, hrt⟩ :=
        ih (by simp) (applyEvent store (NetEvent.responseReceived id x.1 x.2)) _ h1
      refine ⟨r, ?_, hu, hm, hh, hp, ht, ?_, ?_⟩
      · simpa [applyEvents] using hr
      · rw [List.getLast_cons]; exact hresp
      · rw [List.getLast_cons]; exact hrt

/-! ## Claims about the record store merge (C1, C6) -/

/-- C1 (counterexample): the merge is NOT order-independent. Ingesting the
"response received" event for `"r1"` first and the "request sent" event second
leaves a record with no response at all — the request handler overwrites the
whole record — whereas the opposite order keeps the response fields from the
response event, contradicting the claim that both orders yield the same final
record with the response fields taken from the last response event. -/
theorem c1_order_counterexample :
    ((applyEvents emptyStore
        [NetEvent.responseReceived "r1" respSample200 2,
         NetEvent.requestSent "r1" "http://a/x" "GET" [] none 1]) "r1").bind
        (fun r => r.response) = none
    ∧ ((applyEvents emptyStore
        [NetEvent.requestSent "r1" "http://a/x" "GET" [] none 1,
         NetEvent.responseReceived "r1" respSample200 2]) "r1").bind
        (fun r => r.response) = some respSample200 := by
  exact ⟨rfl, rfl⟩

/-- C1 (amended): the merge is order-independent only in the direction the
transport normally delivers. Whenever the "request sent" event is ingested
first, followed by any nonempty sequence of "response received" events for the
same `requestId`, the final record's request fields equal the values from the
request event and its response fields equal the values from the last response
event; if instead a request event arrives after a response event it overwrites
the record and the earlier response fields are dropped. -/
theorem c1_request_first_merge (store : Store) (id u m : String)
    (hs : List (String × String)) (p : Option String) (t : Nat)
    (resps : List (RespData × Nat)) (hne : resps ≠ []) :
    ∃ r, (applyEvents store (NetEvent.requestSent id u m hs p t ::
            resps.map (fun rt => NetEvent.responseReceived id rt.1 rt.2))) id = some r
      ∧ r.url = some u ∧ r.method = some m ∧ r.headers = some hs
      ∧ r.postData = p ∧ r.timestamp = some t
      ∧ r.response = some (resps.getLast hne).1
      ∧ r.responseTimestamp = some (resps.getLast hne).2 := by
  have h1 : (applyEvent store (NetEvent.requestSent id u m hs p t)) id =
      some { requestId := some id, url := some u, method := some m,
             headers := some hs, postData := p, timestamp := some t,
             type := some "request" } := by
    simp [applyEvent, onRequestSent]
  obtain ⟨r, hr, hu, hm, hh, hp, ht, hresp, hrt⟩ :=
    respFold_preserves id resps hne _ _ h1
  exact ⟨r, by simpa [applyEvents] using hr, hu, hm, hh, hp, ht, hresp, hrt⟩

/-- C1 (witness for the amended claim): request for `"r1"` then one response. -/
theorem c1_request_first_merge_witness :
    ∃ r, (applyEvents emptyStore
            [NetEvent.requestSent "r1" "http://a/x" "GET" [] none 1,
             NetEvent.responseReceived "r1" respSample200 2]) "r1" = some r
      ∧ r.url = some "http://a/x" ∧ r.method = some "GET" ∧ r.headers = some []
      ∧ r.postData = none ∧ r.timestamp = some 1
      ∧ r.response = some respSample200
      ∧ r.responseTimestamp = some 2 :=
  c1_request_first_merge emptyStore "r1" "http://a/x" "GET" [] none 1
    [(respSample200, 2)] (by decide)

/-- C6: a "response received" event with no prior request event for its id
creates a record whose request fields (`url`, `method`, `headers`, `postData`,
`timestamp`, and also `type`) are all absent and whose response carries the
event's status (404 here); and when a record already exists for the id, a
response event merges in the response fields while preserving every existing
request field. -/
theorem c6_response_without_request :
    (respSample404.status = 404
      ∧ (onResponseReceived emptyStore "r2" respSample404 5) "r2" =
          some { requestId := some "r2", response := some respSample404,
                 responseTimestamp := some 5 })
    ∧ ∀ (store : Store) (id : String) (resp : RespData) (t : Nat)
        (r0 : NetworkRecord), store id = some r0 →
        ∃ r, (onResponseReceived store id resp t) id = some r
          ∧ r.url = r0.url ∧ r.method = r0.method ∧ r.headers = r0.headers
          ∧ r.postData = r0.postData ∧ r.timestamp = r0.timestamp
          ∧ r.response = some resp ∧ r.responseTimestamp = some t := by
  refine ⟨⟨rfl, rfl⟩, ?_⟩
  intro store id resp t r0 h
  refine ⟨{ r0 with
            requestId := some id
            response := some resp
            responseTimestamp := some t }, ?_, rfl, rfl, rfl, rfl, rfl, rfl, rfl⟩
  simp [onResponseReceived, h]

/-- C6 (witness): merging a 200 response into an existing request record for
`"r1"` preserves the request fields. -/
theorem c6_response_without_request_witness :
    ∃ r, (onResponseReceived
            (onRequestSent emptyStore "r1" "http://a/x" "GET" [] none 1)
            "r1" respSample200 2) "r1" = some r
      ∧ r.url = some "http://a/x" ∧ r.method = some "GET" ∧ r.headers = some []
      ∧ r.postData = none ∧ r.timestamp = some 1
      ∧ r.response = some respSample200 ∧ r.responseTimestamp = some 2 :=
  c6_response_without_request.2
    (onRequestSent emptyStore "r1" "http://a/x" "GET" [] none 1)
    "r1" respSample200 2
    { requestId := some "r1", url := some "http://a/x", method := some "GET",
      headers := some [], postData := none, timestamp := some 1,
      type := some "request" }
    (by decide)

/-! ## Claims about the query engine (C4, C5, C10) -/

/-- Members of `insertDesc r l` are `r` or members of `l`. -/
theorem mem_insertDesc {r x : NetworkRecord} :
    ∀ {l : List NetworkRecord}, x ∈ insertDesc r l → x = r ∨ x ∈ l := by
  intro l
  induction l with
  | nil => intro hx; simpa [insertDesc] using hx
  | cons a l ih =>
    intro hx
    by_cases hc : tsKey a ≤ tsKey r
    · simp only [insertDesc, if_pos hc, List.mem_cons] at hx
      simpa [List.mem_cons] using hx
    · simp only [insertDesc, if_neg hc, List.mem_cons] at hx
      cases hx with
      | inl h => exact Or.inr (by simp [h])
      | inr h =>
        cases ih h with
        | inl h2 => exact Or.inl h2
        | inr h2 => exact Or.inr (by simp [h2])

/-- Inserting into a list sorted by non-increasing timestamp keeps it sorted. -/
theorem pairwise_insertDesc {r : NetworkRecord} :
    ∀ {l : List NetworkRecord},
      l.Pairwise (fun a b => tsKey b ≤ tsKey a) →
      (insertDesc r l).Pairwise (fun a b => tsKey b ≤ tsKey a) := by
  intro l
  induction l with
  | nil => intro _; simp [insertDesc]
  | cons a l ih =>
    intro h
    obtain ⟨ha, hl⟩ := List.pairwise_cons.mp h
    by_cases hc : tsKey a ≤ tsKey r
    · simp only [insertDesc, if_pos hc]
      refine List.pairwise_cons.mpr ⟨?_, h⟩
      intro b hb
      cases List.mem_cons.mp hb with
      | inl h2 => simpa [h2] using hc
      | inr h2 => exact le_trans (ha b h2) hc
    · simp only [insertDesc, if_neg hc]
      refine List.pairwise_cons.mpr ⟨?_, ih hl⟩
      intro b hb
      cases mem_insertDesc hb with
      | inl h2 => subst h2; exact Nat.le_of_lt (Nat.lt_of_not_le hc)
      | inr h2 => exact ha b h2

/-- `sortDesc` sorts by non-increasing timestamp key. -/
theorem pairwise_sortDesc :
    ∀ l : List NetworkRecord,
      (sortDesc l).Pairwise (fun a b => tsKey b ≤ tsKey a) := by
  intro l
  induction l with
  | nil => simp [sortDesc]
  | cons a l ih => exact pairwise_insertDesc ih

/-- C4: for every snapshot of the record store and every query, the result has
at most `limit` records and is non-increasing by timestamp, where a record
lacking a timestamp sorts with key 0 (`tsKey`), i.e. as the oldest. -/
theorem c4_query_limit_and_sorted (snapshot : List NetworkRecord)
    (opts : QueryOpts) :
    (query snapshot opts).length ≤ opts.limit
    ∧ (query snapshot opts).Pairwise (fun a b => tsKey b ≤ tsKey a) := by
  constructor
  · calc (query snapshot opts).length
        = min opts.limit (sortDesc (queryFilter opts snapshot)).length := by
          simp [query, List.length_take]
      _ ≤ opts.limit := Nat.min_le_left _ _
  · exact ((pairwise_sortDesc (queryFilter opts snapshot)).sublist
      (List.take_sublist _ _))

/-- The compiled pattern for `"*"` is a single `.*`, which matches at position
0 of every subject. -/
theorem rtest_star_dot (s : List Char) : rtest [RTok.star RAtom.dot] s = true := by
  cases s with
  | nil => rfl
  | cons c s => rfl

/-- C5: URL filtering is case-insensitive and unanchored after compiling each
`*` to `.*`: a `urlFilter` of `"*"` matches every record, and a `urlFilter` of
`"foo"` matches a record whose url is `"https://FOO.com/x"`. -/
theorem c5_wildcard_and_case_insensitive :
    (∀ r : NetworkRecord, urlFilterMatches "*" r = true)
    ∧ ∀ r : NetworkRecord, r.url = some "https://FOO.com/x" →
        urlFilterMatches "foo" r = true := by
  constructor
  · intro r
    have hp : compilePattern "*" = [RTok.star RAtom.dot] := by decide
    show rtest (compilePattern "*") (lowerChars (r.url.getD "undefined").data) = true
    rw [hp]
    exact rtest_star_dot _
  · intro r h
    simp only [urlFilterMatches, h]
    decide

/-- C5 (witness): the concrete case-insensitive match. -/
theorem c5_wildcard_and_case_insensitive_witness :
    urlFilterMatches "foo" { url := some "https://FOO.com/x" } = true :=
  c5_wildcard_and_case_insensitive.2 { url := some "https://FOO.com/x" } rfl

/-- C10: characters of `urlFilter` other than `*` reach the compiled regular
expression unescaped, so regex metacharacters keep their meaning: the filter
`"a.c"` matches a record whose url is `"abc"` (the `.` matches any character),
even though `"abc"` does not contain the literal substring `"a.c"`. -/
theorem c10_metachar_unescaped :
    urlFilterMatches "a.c" { url := some "abc" } = true
    ∧ ¬ List.IsInfix "a.c".data "abc".data := by
  constructor
  · decide
  · decide

/-! ## Claim about connection reuse (C2) -/

/-- C2 (counterexample): `query-network-traffic` does NOT perform the stale
check. With a handle present whose socket is not open (`readyState = 3`), the
operation's connection step reuses that very handle and opens nothing new,
contradicting the claim that every user-facing operation closes a stale handle
and never reuses it. -/
theorem c2_stale_reuse_counterexample :
    queryEnsureClient (some { wsReadyState := some 3, targetUrl := "ws://old" })
        [{ type := "page", webSocketDebuggerUrl := "ws://new" }] =
      some ({ wsReadyState := some 3, targetUrl := "ws://old" }, false)
    ∧ ({ wsReadyState := some 3, targetUrl := "ws://old" } : CdpClient).wsReadyState
        ≠ some 1 := by
  exact ⟨rfl, by decide⟩

/-- C2 (amended): only the `open-url` operation performs the stale check: if a
handle exists whose socket is not open, `open-url` closes it (close errors
ignored) and opens a fresh connection against the first `type = "page"` target
(else the first target) of a freshly fetched target list, never reusing the
stale handle; `query-network-traffic` instead reuses any existing handle
regardless of socket state, and only opens a new connection (against the same
target selection) when no handle exists at all. -/
theorem c2_stale_handling (client : CdpClient) (targets : List CTarget)
    (t : CTarget) (hstale : client.wsReadyState ≠ some 1)
    (ht : pageTargetOf targets = some t) :
    openUrlEnsureClient (some client) targets =
      some ({ wsReadyState := some 1, targetUrl := t.webSocketDebuggerUrl }, true, true)
    ∧ queryEnsureClient (some client) targets = some (client, false)
    ∧ queryEnsureClient none targets =
        some ({ wsReadyState := some 1, targetUrl := t.webSocketDebuggerUrl }, true) := by
  have hb : (client.wsReadyState == some 1) = false := beq_eq_false_iff_ne.mpr hstale
  refine ⟨?_, rfl, ?_⟩
  · simp [openUrlEnsureClient, ht, hb]
  · simp [queryEnsureClient, ht]

/-- C2 (witness for the amended claim): a handle with `readyState = 3` against
a one-page target list. -/
theorem c2_stale_handling_witness :
    openUrlEnsureClient (some { wsReadyState := some 3, targetUrl := "ws://old" })
        [{ type := "page", webSocketDebuggerUrl := "ws://new" }] =
      some ({ wsReadyState := some 1, targetUrl := "ws://new" }, true, true)
    ∧ queryEnsureClient (some { wsReadyState := some 3, targetUrl := "ws://old" })
        [{ type := "page", webSocketDebuggerUrl := "ws://new" }] =
      some ({ wsReadyState := some 3, targetUrl := "ws://old" }, false)
    ∧ queryEnsureClient none [{ type := "page", webSocketDebuggerUrl := "ws://new" }] =
        some ({ wsReadyState := some 1, targetUrl := "ws://new" }, true) :=
  c2_stale_handling { wsReadyState := some 3, targetUrl := "ws://old" }
    [{ type := "page", webSocketDebuggerUrl := "ws://new" }]
    { type := "page", webSocketDebuggerUrl := "ws://new" }
    (by decide) (by decide)

/-! ## Claim about the settle wait (C3) -/

theorem lastActivity_le_actBound (t0 t : Nat) :
    ∀ events : List Nat, lastActivity t0 events t ≤ actBound t0 events := by
  intro events
  induction events with
  | nil => exact Nat.le_refl t0
  | cons e rest ih =>
    simp only [lastActivity, actBound]
    by_cases hc : e ≤ t
    · rw [if_pos hc]
      exact max_le_max ih (Nat.le_refl e)
    · rw [if_neg hc]
      exact le_trans ih (le_max_left _ _)

theorem mem_le_lastActivity (t0 t : Nat) :
    ∀ (events : List Nat) (e : Nat), e ∈ events → e ≤ t →
      e ≤ lastActivity t0 events t := by
  intro events
  induction events with
  | nil => intro e he _; exact absurd he (List.not_mem_nil e)
  | cons a rest ih =>
    intro e he het
    simp only [lastActivity]
    cases List.mem_cons.mp he with
    | inl h => subst h; rw [if_pos het]; exact le_max_right _ _
    | inr h =>
      by_cases hc : a ≤ t
      · rw [if_pos hc]; exact le_trans (ih e h het) (le_max_left _ _)
      · rw [if_neg hc]; exact ih e h het

theorem lastActivity_le (t0 t : Nat) (h : t0 ≤ t) :
    ∀ events : List Nat, lastActivity t0 events t ≤ t := by
  intro events
  induction events with
  | nil => exact h
  | cons a rest ih =>
    simp only [lastActivity]
    by_cases hc : a ≤ t
    · rw [if_pos hc]; exact max_le ih hc
    · rw [if_neg hc]; exact ih

/-- The check passes at tick `actBound + 9`, because by then a full window has
elapsed after every possible value of `lastNetworkActivity`. -/
theorem settledChk_at_bound (t0 : Nat) (events : List Nat) :
    settledChk t0 events (actBound t0 events + 9) = true := by
  have h1 := lastActivity_le_actBound t0
    (t0 + 100 * (actBound t0 events + 9 + 1)) events
  simp only [settledChk, decide_eq_true_eq]
  omega

/-- If some tick within the fuel passes the check, the loop returns a tick
that passes the check (the loop exits on its condition, not on fuel). -/
theorem settleLoop_settled (t0 : Nat) (events : List Nat) :
    ∀ fuel k : Nat, (∃ j, j < fuel ∧ settledChk t0 events (k + j) = true) →
      settledChk t0 events (settleLoop t0 events k fuel) = true := by
  intro fuel
  induction fuel with
  | zero =>
    intro k hex
    obtain ⟨j, hj, _⟩ := hex
    exact absurd hj (Nat.not_lt_zero j)
  | succ f ih =>
    intro k hex
    obtain ⟨j, hj, hset⟩ := hex
    simp only [settleLoop]
    by_cases hc : settledChk t0 events k = true
    · rw [if_pos hc]; exact hc
    · rw [if_neg hc]
      cases j with
      | zero => exact absurd (by simpa using hset) hc
      | succ j' =>
        apply ih (k + 1)
        refine ⟨j', by omega, ?_⟩
        have h2 : k + 1 + j' = k + (j' + 1) := by omega
        rw [h2]; exact hset

/-- The loop returns the first passing tick. -/
theorem settleLoop_first (t0 : Nat) (events : List Nat) :
    ∀ fuel k j : Nat, j < fuel → settledChk t0 events (k + j) = true →
      (∀ i, i < j → settledChk t0 events (k + i) = false) →
      settleLoop t0 events k fuel = k + j := by
  intro fuel
  induction fuel with
  | zero => intro k j hj _ _; omega
  | succ f ih =>
    intro k j hj hset hmin
    simp only [settleLoop]
    cases j with
    | zero => rw [if_pos (by simpa using hset)]; simp
    | succ j' =>
      have hc : settledChk t0 events k = false := by
        have h0 := hmin 0 (Nat.succ_pos j')
        simpa using h0
      rw [if_neg (by simp [hc])]
      have hrec := ih (k + 1) j' (by omega)
        (by have h2 : k + 1 + j' = k + (j' + 1) := by omega
            rw [h2]; exact hset)
        (by intro i hi
            have h3 : k + 1 + i = k + (i + 1) := by omega
            rw [h3]; exact hmin (i + 1) (by omega))
      rw [hrec]; omega

/-- With zero events the check is exactly "ten ticks have elapsed". -/
theorem settledChk_nil (t0 k : Nat) : settledChk t0 [] k = true ↔ 9 ≤ k := by
  simp only [settledChk, lastActivity, decide_eq_true_eq]
  omega

/-- With zero events the wait resolves at exactly `t0 + 1000`. -/
theorem settleTime_nil (t0 : Nat) : settleTime t0 [] = t0 + 1000 := by
  have h9 : settleLoop t0 [] 0 (actBound t0 [] + 10) = 0 + 9 := by
    apply settleLoop_first
    · show 9 < actBound t0 [] + 10
      omega
    · rw [Nat.zero_add]
      exact (settledChk_nil t0 9).mpr (by omega)
    · intro i hi
      rw [Nat.zero_add]
      cases hb : settledChk t0 [] i with
      | false => rfl
      | true => exact absurd ((settledChk_nil t0 i).mp hb) (by omega)
  simp only [settleTime, settleTick, h9]

/-- C3: the settle wait of `open-url` (window 1000 ms, poll 100 ms) resolves
at a tick where the settle condition genuinely holds; at that moment every
network event observed up to the resolution time lies at least 1000 ms in the
past; and it always eventually resolves even with zero events — then at
exactly `t0 + 1000`. -/
theorem c3_settle_wait (t0 : Nat) (events : List Nat) :
    settledChk t0 events (settleTick t0 events) = true
    ∧ (∀ e ∈ events, e ≤ settleTime t0 events → e + 1000 ≤ settleTime t0 events)
    ∧ settleTime t0 [] = t0 + 1000 := by
  have hset : settledChk t0 events (settleTick t0 events) = true := by
    apply settleLoop_settled
    refine ⟨actBound t0 events + 9, by omega, ?_⟩
    rw [Nat.zero_add]
    exact settledChk_at_bound t0 events
  refine ⟨hset, ?_, settleTime_nil t0⟩
  intro e he het
  have hla : lastActivity t0 events (settleTime t0 events) ≤ settleTime t0 events := by
    apply lastActivity_le
    unfold settleTime
    omega
  have hchk : 1000 ≤ settleTime t0 events
      - lastActivity t0 events (settleTime t0 events) := by
    have h1 := hset
    simp only [settledChk, decide_eq_true_eq] at h1
    exact h1
  have hmem : e ≤ lastActivity t0 events (settleTime t0 events) :=
    mem_le_lastActivity t0 (settleTime t0 events) events e he het
  omega

/-- C3 (witness): one event at `t = 50` with the wait started at `t0 = 0`;
the wait resolves at 1100, at least 1000 ms after the event. -/
theorem c3_settle_wait_witness : 50 + 1000 ≤ settleTime 0 [50] :=
  (c3_settle_wait 0 [50]).2.1 50 (by decide) (by decide)

/-! ## Claims about `start-chrome-debug` (C7, C8) -/

/-- C7: when the endpoint is initially unreachable (zero targets) and all 15
polls at 500 ms fail, the handler kills the spawned process (`chromeProcess`
ends up `none`, `killedSpawned` is set) and returns the descriptive
"Failed to start Chrome: ..." text to the caller — the embedded handler is a
total function whose timeout branch returns this text (the outer `catch`
converting the throw), so the host process is never aborted. -/
theorem c7_startup_timeout (st : GlobalState) (env : ChromeEnv)
    (h0 : env.initialTargets = 0) (hp : ∀ i, i < 15 → env.probe i = false) :
    startChromeDebug st env =
      ("Failed to start Chrome: " ++ chromeTimeoutMsg,
       { st with chromeProcess := none },
       { spawned := true, killedOrphans := true, killedSpawned := true }) := by
  have hw : waitForChromeAccessible env.probe 15 500 = false := by
    simp only [waitForChromeAccessible, List.any_eq_false]
    intro i hi
    have hpi : env.probe i = false := hp i (by simpa using hi)
    simp [hpi]
  simp [startChromeDebug, h0, hw]

/-- C7 (witness): an environment whose probe never succeeds. -/
theorem c7_startup_timeout_witness :
    startChromeDebug sampleState sampleEnvTimeout =
      ("Failed to start Chrome: " ++ chromeTimeoutMsg,
       { sampleState with chromeProcess := none },
       { spawned := true, killedOrphans := true, killedSpawned := true }) :=
  c7_startup_timeout sampleState sampleEnvTimeout rfl (fun _ _ => rfl)

/-- C8: when the first probe already sees at least one target, the handler
spawns nothing, kills nothing, leaves the global state exactly as it was, and
returns the already-running report carrying the observed target count. -/
theorem c8_already_running (st : GlobalState) (env : ChromeEnv)
    (h : 0 < env.initialTargets) :
    startChromeDebug st env =
      (alreadyRunningText env.initialTargets, st,
       { spawned := false, killedOrphans := false, killedSpawned := false }) := by
  simp [startChromeDebug, h]

/-- C8 (witness): three targets already present. -/
theorem c8_already_running_witness :
    startChromeDebug sampleState sampleEnvRunning =
      (alreadyRunningText 3, sampleState,
       { spawned := false, killedOrphans := false, killedSpawned := false }) :=
  c8_already_running sampleState sampleEnvRunning (by decide)

/-! ## Claim about `get-network-details` partial failure (C9) -/

/-- C9: for a record with no cached post data, failure of both best-effort
fetches never fails the operation: the response-body failure degrades to the
inline "Could not retrieve response body" marker, the post-data failure is
silently omitted (`postData` stays null whether or not the method is
state-changing), and the rest of the detail report is still produced, starting
with its `## method url` / `Status:` head. -/
theorem c9_detail_partial_failure (includeHeaders : Bool) (req : NetworkRecord)
    (e e2 : String) (hpd : truthyOptStr req.postData = false) :
    (getNetworkDetails includeHeaders req (Except.error e) (Except.error e2)).responseBody
        = RespBodyField.fetchError "Could not retrieve response body"
    ∧ (getNetworkDetails includeHeaders req (Except.error e) (Except.error e2)).postData
        = none
    ∧ ∃ rest, (getNetworkDetails includeHeaders req (Except.error e)
        (Except.error e2)).text = mdHead req ++ rest := by
  refine ⟨rfl, ?_, ⟨_, rfl⟩⟩
  simp [getNetworkDetails, detailPostData, hpd]

/-- C9 (witness): a POST record with no cached post data, both fetches fail. -/
theorem c9_detail_partial_failure_witness :
    (getNetworkDetails false samplePostReq (Except.error "boom")
        (Except.error "nope")).responseBody
      = RespBodyField.fetchError "Could not retrieve response body"
    ∧ (getNetworkDetails false samplePostReq (Except.error "boom")
        (Except.error "nope")).postData = none
    ∧ ∃ rest, (getNetworkDetails false samplePostReq (Except.error "boom")
        (Except.error "nope")).text = mdHead samplePostReq ++ rest :=
  c9_detail_partial_failure false samplePostReq "boom" "nope" rfl
